import Mathlib

/-!
Verification development for the tree-sitter-yap grammar.

The repository consists of three tree-sitter grammar files for the Yap
language: the main grammar (src/grammar.js, embedded here under the
namespace Gjs) and two evolving draft variants (src/unnamed/part_000;
the second, more developed draft is embedded under the namespace V2;
where the two drafts agree on the facts under verification only V2 is
embedded, and the agreement is noted in comments).

A tree-sitter grammar is declarative data: rules built from seq, choice,
repeat, prec.left and prec.right.  The parsing engine that interprets it
is not part of the repository.  We therefore embed

  1. the token shapes, keyword sets, precedence numbers and rule lists,
     transcribed literally from the grammar files, and
  2. deterministic recursive-descent parsers realising those rules by
     precedence climbing, with the declared-conflict tie-breaks taken
     from the specification (such definitions carry doc comments that
     begin with: Modelled from the spec).

Theorems about concrete parses are settled by definitional evaluation.
-/

/-- Tokens of the Yap lexers.  Fixed lexemes (keywords, operators and
delimiters, the anonymous tokens of the grammars) are carried as `sym`;
`label` is the single-token `:identifier` form produced only by the
draft-grammar lexer (in grammar.js the label is parser-level).  Number
tokens keep the integer part and the optional fractional part separate,
mirroring the rule seq(digits, '.', digits) | digits. -/
inductive Tok where
  | ident (s : String)
  | num (intPart : String) (fracPart : Option String)
  | strlit (s : String)
  | label (s : String)
  | sym (s : String)
deriving DecidableEq, Repr

/-- ASCII letter test, the character class [a-zA-Z] of the grammars. -/
def isAlphaCh (c : Char) : Bool :=
  ('a' ≤ c && c ≤ 'z') || ('A' ≤ c && c ≤ 'Z')

/-- ASCII digit test, the character class [0-9] of the grammars. -/
def isDigitCh (c : Char) : Bool :=
  '0' ≤ c && c ≤ '9'

/-- First character of an identifier in src/grammar.js:  [a-zA-Z]. -/
def gjsIdentStart (c : Char) : Bool := isAlphaCh c

/-- Continuation character of an identifier in src/grammar.js:  [a-zA-Z0-9]. -/
def gjsIdentCont (c : Char) : Bool := isAlphaCh c || isDigitCh c

/-- First character of IDENTIFIER_PATTERN in the draft grammars:  [a-zA-Z_]. -/
def draftIdentStart (c : Char) : Bool := isAlphaCh c || c = '_'

/-- Continuation character of IDENTIFIER_PATTERN in the drafts:  [a-zA-Z0-9_']. -/
def draftIdentCont (c : Char) : Bool :=
  isAlphaCh c || isDigitCh c || c = '_' || c = '\''

/-- Identifier lexeme test transcribed from src/grammar.js line 350:
the regular expression [a-zA-Z][a-zA-Z0-9]*. -/
def gjsIdentM (s : String) : Bool :=
  match s.toList with
  | [] => false
  | c :: cs => gjsIdentStart c && cs.all gjsIdentCont

/-- Identifier lexeme test transcribed from the draft grammars
(IDENTIFIER_PATTERN, src/unnamed/part_000 line 10):  [a-zA-Z_][a-zA-Z0-9_']*. -/
def draftIdentM (s : String) : Bool :=
  match s.toList with
  | [] => false
  | c :: cs => draftIdentStart c && cs.all draftIdentCont

/-- Identifier lexeme test written from the words of the specification
(section 4.1): the regular expression [A-Za-z_][A-Za-z0-9_']*.  Kept as a
separate definition so that it can be compared with the two patterns
found in the source. -/
def specIdentM (s : String) : Bool :=
  match s.toList with
  | [] => false
  | c :: cs =>
      (isAlphaCh c || c = '_') &&
      cs.all (fun d => isAlphaCh d || isDigitCh d || d = '_' || d = '\'')

/-- Word-shaped fixed lexemes of the grammars: every string literal of a
grammar rule that matches the declared word rule (the identifier
pattern), hence subject to tree-sitter keyword extraction.  Identical in
grammar.js and the drafts. -/
def yapKeywords : List String :=
  ["let", "using", "foreign", "export", "import", "as", "match", "return",
   "reset", "shift", "resume", "true", "false", "Type", "Unit", "Row"]

/-- Modelled from the spec: word-based keyword override (spec section
4.1, signalled in the source by the declaration word: identifier).  A
lexeme that matched the identifier pattern is compared against the
keyword set before an identifier token is emitted; the comparison itself
is performed by the tree-sitter runtime, which is not in the repository. -/
def classifyWord (s : String) : Tok :=
  if yapKeywords.contains s then Tok.sym s else Tok.ident s

/-- Two-character operator lexemes shared by all grammar variants. -/
def twoCharSyms : List String :=
  ["->", "=>", "|>", "<|", "<>", "++", "==", "!=", "<=", ">="]

/-- Single-character fixed lexemes needed by the lexed fragments. -/
def oneCharSyms : List Char :=
  ['(', ')', '[', ']', ',', ';', ':', '|', '.', '\\', '@', '#',
   '+', '-', '*', '/', '%', '<', '>', '=', '!', '_', '?']

/-- Generic maximal-munch lexer fragment for the Yap token shapes that
the claims exercise (identifiers, integer and fractional numbers, fixed
lexemes, whitespace).  Parameters select the identifier character
classes and whether `:identifier` is lexed as one label token (the draft
grammars) or ':' is always its own token (grammar.js, whose label rule
is parser-level).  Longest match first: two-character lexemes before
one-character ones, and the label munch before the bare colon. -/
def lexGo (idStart idCont : Char → Bool) (labelTok : Bool) :
    Nat → List Char → Option (List Tok)
  | 0, _ => none
  | _, [] => some []
  | f + 1, c :: cs =>
    if c = ' ' || c = '\n' || c = '\t' then lexGo idStart idCont labelTok f cs
    else if idStart c then
      let (xs, rest) := cs.span idCont
      (lexGo idStart idCont labelTok f rest).map
        (fun ts => classifyWord (String.mk (c :: xs)) :: ts)
    else if isDigitCh c then
      let (xs, rest) := cs.span isDigitCh
      match rest with
      | '.' :: d :: rest2 =>
        if isDigitCh d then
          let (ys, rest3) := (d :: rest2).span isDigitCh
          (lexGo idStart idCont labelTok f rest3).map
            (fun ts => Tok.num (String.mk (c :: xs)) (some (String.mk ys)) :: ts)
        else
          (lexGo idStart idCont labelTok f rest).map
            (fun ts => Tok.num (String.mk (c :: xs)) none :: ts)
      | _ =>
        (lexGo idStart idCont labelTok f rest).map
          (fun ts => Tok.num (String.mk (c :: xs)) none :: ts)
    else if labelTok && c = ':' &&
            (match cs with | d :: _ => idStart d | [] => false) then
      match cs with
      | d :: ds =>
        let (xs, rest) := ds.span idCont
        (lexGo idStart idCont labelTok f rest).map
          (fun ts => Tok.label (String.mk (d :: xs)) :: ts)
      | [] => none
    else
      match cs with
      | c2 :: rest2 =>
        if twoCharSyms.contains (String.mk [c, c2]) then
          (lexGo idStart idCont labelTok f rest2).map
            (fun ts => Tok.sym (String.mk [c, c2]) :: ts)
        else if oneCharSyms.contains c then
          (lexGo idStart idCont labelTok f cs).map
            (fun ts => Tok.sym (String.mk [c]) :: ts)
        else none
      | [] =>
        if oneCharSyms.contains c then
          some [Tok.sym (String.mk [c])]
        else none

/-- Lexer fragment of src/grammar.js: identifier pattern [a-zA-Z][a-zA-Z0-9]*,
no label token (grammar.js builds labels in the parser from ':' and an
identifier token). -/
def lexG (cs : List Char) : Option (List Tok) :=
  lexGo gjsIdentStart gjsIdentCont false (cs.length + 1) cs

/-- Lexer fragment of the draft grammars: identifier pattern
[a-zA-Z_][a-zA-Z0-9_']*, and ':' immediately followed by an identifier is
one label token by maximal munch (the rule
label: token(RegExp(":" + IDENTIFIER_PATTERN.source))). -/
def lexV (cs : List Char) : Option (List Tok) :=
  lexGo draftIdentStart draftIdentCont true (cs.length + 1) cs

/-- Associativity markers, mirroring prec.left and prec.right of the DSL. -/
inductive Assoc where
  | left
  | right
deriving DecidableEq, Repr

/-- Binary-operator tiers of the operation rule, identical in
src/grammar.js (lines 169-177) and in both drafts: multiplicative 54,
additive 53, concat 52, relational 51, pipeline 22, logical-and 42,
logical-or 41.  All are declared prec.left in the source. -/
def leftOpPrec (s : String) : Option Nat :=
  if s = "*" || s = "/" || s = "%" then some 54
  else if s = "+" || s = "-" then some 53
  else if s = "<>" || s = "++" then some 52
  else if s = "==" || s = "!=" || s = "<=" || s = ">=" || s = "<" || s = ">" then some 51
  else if s = "|>" || s = "<|" then some 22
  else if s = "&&" then some 42
  else if s = "||" then some 41
  else none

/-- Rule names of src/grammar.js, in source order.  Note that the list
has a pi rule but no arrow rule. -/
def gjsRuleNames : List String :=
  ["source_file", "module", "script", "exports", "import", "statement",
   "letdec", "using", "foreign", "type", "ann", "modal_type", "mu", "expr",
   "application", "operation", "atom", "parenthesized", "variable", "hole",
   "label", "literal", "string", "number", "boolean", "lambda", "param",
   "typed_param", "pi", "row", "key_value", "key", "struct", "tuple",
   "list", "variant", "tagged", "dict", "projection", "injection",
   "assignment", "block", "return_statement", "match", "alternative",
   "pattern", "pattern_variable", "pattern_literal", "pattern_tagged",
   "pattern_struct", "pattern_tuple", "pattern_list", "pattern_row",
   "pattern_key_value", "wildcard", "reset", "shift", "resume", "quantity",
   "identifier", "comment"]

/-- Rule names of the second draft grammar (src/unnamed/part_000, lines
420 on), in source order; the first draft differs only in lacking the
pidomain and arrdomain helper rules (its pi and arrow rules inline the
same domain shapes).  Both drafts have separate pi and arrow rules. -/
def v2RuleNames : List String :=
  ["source_file", "module", "script", "exports", "import", "statement",
   "letdec", "using", "foreign", "type_expr", "modal", "mu", "expr",
   "annotation", "unary", "application", "argument", "operation", "atom",
   "parenthesized", "variable", "hole", "identifier", "label", "literal",
   "string", "_digits", "number", "boolean", "pi", "arrow", "pidomain",
   "arrdomain", "lambda", "params", "param", "typing", "row", "key_value",
   "key", "struct", "tuple", "list", "variant", "tagged", "dict",
   "projection", "injection", "assignment", "block", "return_statement",
   "match", "alternative", "pattern", "pattern_tagged", "pattern_struct",
   "pattern_tuple", "pattern_list", "pattern_row", "pattern_key_value",
   "wildcard", "reset", "shift", "resume", "quantity", "comment"]

/-- Alternatives of the atom rule in src/grammar.js. -/
def gjsAtomChoices : List String :=
  ["variable", "hole", "literal", "struct", "tuple", "projection",
   "injection", "list", "tagged", "parenthesized"]

/-- Alternatives of the atom rule in the second draft grammar. -/
def v2AtomChoices : List String :=
  ["variable", "hole", "literal", "dict", "struct", "tuple", "projection",
   "injection", "row", "list", "tagged", "reset", "shift", "resume",
   "parenthesized", "block"]

/-- Alternatives of the pattern rule in src/grammar.js. -/
def gjsPatternChoices : List String :=
  ["pattern_variable", "pattern_literal", "pattern_tagged",
   "pattern_struct", "pattern_tuple", "pattern_list", "pattern_row",
   "wildcard"]

/-- Alternatives of the pattern rule in the second draft grammar. -/
def v2PatternChoices : List String :=
  ["variable", "literal", "pattern_tagged", "pattern_struct",
   "pattern_tuple", "pattern_list", "pattern_row", "wildcard"]

/-- Lexeme of the hole rule in src/grammar.js. -/
def gjsHoleLexeme : String := "_"

/-- Lexeme of the hole rule in both draft grammars. -/
def v2HoleLexeme : String := "?"

/-- Lexeme of the wildcard pattern rule in every variant. -/
def gjsWildcardLexeme : String := "_"

namespace Gjs

/-- AST nodes of the grammar.js grammar, one constructor per named rule
reachable from the expression fragment under verification (the modal,
mu, match and variant rules and the module-level rules are outside the
verified fragment; no claim exercises them).  Field roles follow the
field names of the source. -/
inductive Node where
  | var (name : String)
  | lbl (name : String)
  | hole
  | numL (intPart : String) (fracPart : Option String)
  | strL (s : String)
  | boolL (b : Bool)
  | typeL
  | unitL
  | rowLitL
  | bangL
  | paren (t : Node)
  | structN (fields : List (String × Node)) (tail : Option String)
  | tupleN (elems : List Node) (tail : Option String)
  | listN (elems : List Node) (tail : Option String)
  | rowN (fields : List (String × Node)) (tail : Option String)
  | dictN (index ty : Node)
  | injN (base : Option Node) (updates : List (String × Node))
  | blockN (stmts : List Node) (ret : Option Node)
  | letN (name : String) (ty : Option Node) (value : Node)
  | usingN (e : Node) (asName : Option String)
  | foreignN (name : String) (ty : Node)
  | appN (fn arg : Node) (implicitArg : Bool)
  | opN (op : String) (l r : Node)
  | annN (l r : Node)
  | piN (domain codomain : Node) (implicitArrow : Bool)
  | lamN (params : List (String × Option Node)) (body : Node) (implicitArrow : Bool)
  | taggedN (tag : String) (payload : Node)
  | resetN (e : Node)
  | shiftN (e : Node)
  | resumeN (e : Node)
  | projN (record : Option Node) (key : String)

/-- Type of the expression-parsing entry point threaded through the
non-recursive rule helpers: minimum binding power, then tokens. -/
abbrev PE := Nat → List Tok → Option (Node × List Tok)

/-- One-or-more items separated by commas, the sep1(rule, ',') and
commaSep1(rule) helpers of the grammar files.  After a comma another
item is required. -/
def sepByP {α : Type} (p : List Tok → Option (α × List Tok)) :
    Nat → List Tok → Option (List α × List Tok)
  | 0, _ => none
  | f + 1, ts => do
    let (a, ts1) ← p ts
    match ts1 with
    | Tok.sym "," :: ts2 => do
        let (rest, ts3) ← sepByP p f ts2
        pure (a :: rest, ts3)
    | _ => pure ([a], ts1)

/-- Zero-or-more items, the repeat(rule) helper. -/
def manyP {α : Type} (p : List Tok → Option (α × List Tok)) :
    Nat → List Tok → (List α × List Tok)
  | 0, ts => ([], ts)
  | f + 1, ts =>
    match p ts with
    | some (a, ts1) =>
        let (rest, ts2) := manyP p f ts1
        (a :: rest, ts2)
    | none => ([], ts)

/-- Optional aggregate tail, the clause optional(seq('|', identifier))
of the row, struct, tuple and list rules. -/
def tailP : List Tok → (Option String × List Tok)
  | Tok.sym "|" :: Tok.ident t :: ts => (some t, ts)
  | ts => (none, ts)

/-- key_value rule: key ':' type, where key is an identifier or a digits
lexeme (grammar.js lines 246-251).  A number token with a fractional
part is not a digits lexeme and is rejected as a key. -/
def kvP (pe : PE) : List Tok → Option ((String × Node) × List Tok)
  | Tok.ident k :: Tok.sym ":" :: ts => do
      let (v, ts1) ← pe 0 ts
      pure ((k, v), ts1)
  | Tok.num d none :: Tok.sym ":" :: ts => do
      let (v, ts1) ← pe 0 ts
      pure ((d, v), ts1)
  | _ => none

/-- assignment rule of the injection form: identifier '=' type. -/
def assignP (pe : PE) : List Tok → Option ((String × Node) × List Tok)
  | Tok.ident k :: Tok.sym "=" :: ts => do
      let (v, ts1) ← pe 0 ts
      pure ((k, v), ts1)
  | _ => none

/-- struct rule (grammar.js lines 254-257), interior after the opening
brace: one or more key_value items separated by commas, an optional
'| identifier' tail, and the closing brace.  (The empty-brace branch is
handled before the struct/block tie-break, see braceP.) -/
def structP (pe : PE) (f : Nat) (ts : List Tok) : Option (Node × List Tok) := do
  let (kvs, ts1) ← sepByP (kvP pe) f ts
  let (tl, ts2) := tailP ts1
  match ts2 with
  | Tok.sym "\x7d" :: ts3 => pure (Node.structN kvs tl, ts3)
  | _ => none

/-- tuple rule (grammar.js line 260): one or more types separated by
commas, an optional tail, and the closing brace. -/
def tupleP (pe : PE) (f : Nat) (ts : List Tok) : Option (Node × List Tok) := do
  let (es, ts1) ← sepByP (fun ts => pe 0 ts) f ts
  let (tl, ts2) := tailP ts1
  match ts2 with
  | Tok.sym "\x7d" :: ts3 => pure (Node.tupleN es tl, ts3)
  | _ => none

/-- injection rule with a base record (grammar.js lines 284-287):
'{' record '|' assignments '}'. -/
def injP (pe : PE) (f : Nat) (ts : List Tok) : Option (Node × List Tok) := do
  let (e, ts1) ← pe 0 ts
  match ts1 with
  | Tok.sym "|" :: ts2 => do
      let (us, ts3) ← sepByP (assignP pe) f ts2
      match ts3 with
      | Tok.sym "\x7d" :: ts4 => pure (Node.injN (some e) us, ts4)
      | _ => none
  | _ => none

/-- statement rule (grammar.js lines 96-101): letdec, using, foreign or
a bare expression.  The value and bare-expression positions are $.expr,
which in grammar.js does not include the ann rule; a top-level
annotation is therefore rejected in those positions (it may still occur
nested, e.g. within parentheses). -/
def stmtP (pe : PE) : List Tok → Option (Node × List Tok)
  | Tok.sym "let" :: Tok.ident n :: Tok.sym "=" :: ts => do
      let (v, ts1) ← pe 0 ts
      match v with
      | Node.annN _ _ => none
      | _ => pure (Node.letN n none v, ts1)
  | Tok.sym "let" :: Tok.ident n :: Tok.sym ":" :: ts => do
      let (t, ts1) ← pe 0 ts
      match ts1 with
      | Tok.sym "=" :: ts2 => do
          let (v, ts3) ← pe 0 ts2
          match v with
          | Node.annN _ _ => none
          | _ => pure (Node.letN n (some t) v, ts3)
      | _ => none
  | Tok.sym "using" :: ts => do
      let (e, ts1) ← pe 0 ts
      match e with
      | Node.annN a b =>
        match ts1 with
        | Tok.sym "as" :: Tok.ident n :: ts2 =>
            pure (Node.usingN (Node.annN a b) (some n), ts2)
        | _ => pure (Node.usingN (Node.annN a b) none, ts1)
      | _ => none
  | Tok.sym "foreign" :: Tok.ident n :: Tok.sym ":" :: ts => do
      let (t, ts1) ← pe 0 ts
      pure (Node.foreignN n t, ts1)
  | ts => do
      let (e, ts1) ← pe 0 ts
      match e with
      | Node.annN _ _ => none
      | _ => pure (e, ts1)

/-- return_statement rule (grammar.js line 295): 'return' value ';'
where the value position is $.ann, so a top-level annotation is
required. -/
def retP (pe : PE) : List Tok → Option (Node × List Tok)
  | Tok.sym "return" :: ts => do
      let (v, ts1) ← pe 0 ts
      match v, ts1 with
      | Node.annN a b, Tok.sym ";" :: ts2 => pure (Node.annN a b, ts2)
      | _, _ => none
  | _ => none

/-- Zero-or-more semicolon-terminated statements, the clause
repeat(seq(statement, ';')) of the block rule.  A statement not
followed by ';' is not consumed. -/
def stmtSeqP (p : List Tok → Option (Node × List Tok)) :
    Nat → List Tok → (List Node × List Tok)
  | 0, ts => ([], ts)
  | f + 1, ts =>
    match p ts with
    | some (n, Tok.sym ";" :: ts1) =>
        let (rest, ts2) := stmtSeqP p f ts1
        (n :: rest, ts2)
    | _ => ([], ts)

/-- block rule (grammar.js lines 292-295), interior after the opening
brace: semicolon-terminated statements, an optional return statement,
and the closing brace. -/
def blockP (pe : PE) (f : Nat) (ts : List Tok) : Option (Node × List Tok) :=
  let (stmts, ts1) := stmtSeqP (stmtP pe) f ts
  match retP pe ts1 with
  | some (r, ts2) =>
    match ts2 with
    | Tok.sym "\x7d" :: ts3 => some (Node.blockN stmts (some r), ts3)
    | _ => none
  | none =>
    match ts1 with
    | Tok.sym "\x7d" :: ts2 => some (Node.blockN stmts none, ts2)
    | _ => none

/-- Modelled from the spec: deterministic tie-break among the
brace-delimited readings that overlap in grammar.js (the grammar
declares the conflict [struct, block] and leaves its resolution to the
tree-sitter runtime, which is not part of the repository).  Following
spec section 4.4, the struct reading is preferred exactly when the
interior parses as key:value items; otherwise the tuple, injection and
block readings are attempted in turn.  Each alternative is the
transcribed grammar rule. -/
def braceAlts (pe : PE) (f : Nat) (ts : List Tok) : Option (Node × List Tok) :=
  match structP pe f ts with
  | some r => some r
  | none =>
    match tupleP pe f ts with
    | some r => some r
    | none =>
      match injP pe f ts with
      | some r => some r
      | none => blockP pe f ts

/-- Brace-delimited literals: the empty braces (struct, per spec section
4.4), the dict rule '{' '[' type ']' ':' type '}' recognised by the
immediate '[', the base-less injection recognised by the immediate '|',
and otherwise the struct/tuple/injection/block tie-break. -/
def braceP (pe : PE) (f : Nat) : List Tok → Option (Node × List Tok)
  | Tok.sym "\x7d" :: ts => some (Node.structN [] none, ts)
  | Tok.sym "[" :: ts => do
      let (i, ts1) ← pe 0 ts
      match ts1 with
      | Tok.sym "]" :: Tok.sym ":" :: ts2 => do
          let (t, ts3) ← pe 0 ts2
          match ts3 with
          | Tok.sym "\x7d" :: ts4 => pure (Node.dictN i t, ts4)
          | _ => none
      | _ => none
  | Tok.sym "|" :: ts => do
      let (us, ts1) ← sepByP (assignP pe) f ts
      match ts1 with
      | Tok.sym "\x7d" :: ts2 => pure (Node.injN none us, ts2)
      | _ => none
  | ts => braceAlts pe f ts

/-- row rule (grammar.js line 244), interior after the opening bracket:
key_value items, optional tail, closing bracket. -/
def rowP (pe : PE) (f : Nat) (ts : List Tok) : Option (Node × List Tok) := do
  let (kvs, ts1) ← sepByP (kvP pe) f ts
  let (tl, ts2) := tailP ts1
  match ts2 with
  | Tok.sym "]" :: ts3 => pure (Node.rowN kvs tl, ts3)
  | _ => none

/-- list rule (grammar.js lines 263-266), interior after the opening
bracket: one or more types, optional tail, closing bracket. -/
def listP (pe : PE) (f : Nat) (ts : List Tok) : Option (Node × List Tok) := do
  let (es, ts1) ← sepByP (fun ts => pe 0 ts) f ts
  let (tl, ts2) := tailP ts1
  match ts2 with
  | Tok.sym "]" :: ts3 => pure (Node.listN es tl, ts3)
  | _ => none

/-- Modelled from the spec: bounded one-item lookahead deciding the
declared row/list conflict (spec sections 4.4 and 4.5): empty brackets
are a list; a first item of shape identifier-or-digits ':' commits to
the row reading, anything else commits to the list reading.  The two
committed readings are the transcribed grammar rules. -/
def bracketP (pe : PE) (f : Nat) : List Tok → Option (Node × List Tok)
  | Tok.sym "]" :: ts => some (Node.listN [] none, ts)
  | ts@(Tok.ident _ :: Tok.sym ":" :: _) => rowP pe f ts
  | ts@(Tok.num _ none :: Tok.sym ":" :: _) => rowP pe f ts
  | ts => listP pe f ts

/-- Lexemes among the fixed tokens that can begin an atom (grammar.js
atom rule alternatives: literal keywords, the hole '_', parenthesized,
struct and tuple and block braces, list and row brackets, record-less
projection, tagged). -/
def atomSyms : List String :=
  ["true", "false", "Type", "Unit", "Row", "!", "_", "(", "\x7b", "[", ".", "#"]

/-- Whether the token stream begins an atom of grammar.js (used for the
juxtaposition step of the application rule).  The ':' identifier label
form also begins an atom but is listed separately because ':' alone does
not. -/
def startsAtomG : List Tok → Bool
  | Tok.ident _ :: _ => true
  | Tok.num _ _ :: _ => true
  | Tok.strlit _ :: _ => true
  | Tok.sym ":" :: Tok.ident _ :: _ => true
  | Tok.sym s :: _ => atomSyms.contains s
  | _ => false

/-- Chained field access, the left-associative branch
prec.left(70, seq(atom, '.', identifier)) of the projection rule;
projection is the tightest tier so the chain is consumed greedily after
every atom. -/
def projChain : Nat → Node → List Tok → (Node × List Tok)
  | 0, n, ts => (n, ts)
  | f + 1, n, ts =>
    match ts with
    | Tok.sym "." :: Tok.ident k :: ts2 => projChain f (Node.projN (some n) k) ts2
    | _ => (n, ts)

/-- param rule of the lambda form: a bare identifier or a parenthesized
typed_param (identifier ':' type). -/
def paramP (pe : PE) : List Tok → Option ((String × Option Node) × List Tok)
  | Tok.ident s :: ts => some ((s, none), ts)
  | Tok.sym "(" :: Tok.ident s :: Tok.sym ":" :: ts => do
      let (t, ts1) ← pe 0 ts
      match ts1 with
      | Tok.sym ")" :: ts2 => pure ((s, some t), ts2)
      | _ => none
  | _ => none

/-- repeat1(param) of the lambda rule. -/
def paramsP (pe : PE) (f : Nat) (ts : List Tok) :
    Option (List (String × Option Node) × List Tok) := do
  let (p, ts1) ← paramP pe ts
  let (rest, ts2) := manyP (paramP pe) f ts1
  pure (p :: rest, ts2)

/-- Base atoms of grammar.js (atom rule, lines 180-192): variable
(identifier or the parser-level label ':' identifier), hole, literals,
record-less projection, tagged (prec.right 11 on the payload),
parenthesized type, brace and bracket literals. -/
def atomBase (pe : PE) (f : Nat) : List Tok → Option (Node × List Tok)
  | Tok.ident s :: ts => some (Node.var s, ts)
  | Tok.num i fr :: ts => some (Node.numL i fr, ts)
  | Tok.strlit s :: ts => some (Node.strL s, ts)
  | Tok.sym ":" :: Tok.ident s :: ts => some (Node.lbl s, ts)
  | Tok.sym "true" :: ts => some (Node.boolL true, ts)
  | Tok.sym "false" :: ts => some (Node.boolL false, ts)
  | Tok.sym "Type" :: ts => some (Node.typeL, ts)
  | Tok.sym "Unit" :: ts => some (Node.unitL, ts)
  | Tok.sym "Row" :: ts => some (Node.rowLitL, ts)
  | Tok.sym "!" :: ts => some (Node.bangL, ts)
  | Tok.sym "_" :: ts => some (Node.hole, ts)
  | Tok.sym "." :: Tok.ident k :: ts => some (Node.projN none k, ts)
  | Tok.sym "#" :: Tok.ident tg :: ts => do
      let (p, ts1) ← pe 11 ts
      pure (Node.taggedN tg p, ts1)
  | Tok.sym "(" :: ts => do
      let (e, ts1) ← pe 0 ts
      match ts1 with
      | Tok.sym ")" :: ts2 => pure (Node.paren e, ts2)
      | _ => none
  | Tok.sym "\x7b" :: ts => braceP pe f ts
  | Tok.sym "[" :: ts => bracketP pe f ts
  | _ => none

/-- An atom together with its greedy projection chain. -/
def atomP (pe : PE) (f : Nat) (ts : List Tok) : Option (Node × List Tok) := do
  let (b, ts1) ← atomBase pe f ts
  pure (projChain f b ts1)

/-- Modelled from the spec: the precedence-climbing loop (spec section
4.2) realising the infix and juxtaposition constructs of grammar.js with
their declared tiers: the binary operation tiers (prec.left, see
leftOpPrec), the ann rule ':' at prec.right 32, the pi arrows at
prec.right 11, and application by juxtaposition or '@' at prec.left 60.
A left-associative tier recurses on the right operand with the tier plus
one as the new floor, a right-associative tier with the tier itself.
Where ':' could also begin a label atom for the application reading,
the annotation reading is taken (the grammar declares the related
[variable, key] conflict and leaves it to the runtime). -/
def climb (pe : PE) (atf : List Tok → Option (Node × List Tok)) :
    Nat → Node → Nat → List Tok → Option (Node × List Tok)
  | 0, _, _, _ => none
  | f + 1, l, minP, ts =>
    match ts with
    | Tok.sym s :: ts2 =>
      match leftOpPrec s with
      | some p =>
        if minP ≤ p then do
          let (r, ts3) ← pe (p + 1) ts2
          climb pe atf f (Node.opN s l r) minP ts3
        else some (l, ts)
      | none =>
        if s = ":" then
          if minP ≤ 32 then do
            let (r, ts3) ← pe 32 ts2
            climb pe atf f (Node.annN l r) minP ts3
          else some (l, ts)
        else if s = "->" || s = "=>" then
          if minP ≤ 11 then do
            let (r, ts3) ← pe 11 ts2
            climb pe atf f (Node.piN l r (s = "=>")) minP ts3
          else some (l, ts)
        else if s = "@" then
          if minP ≤ 60 then do
            let (a, ts3) ← atf ts2
            climb pe atf f (Node.appN l a true) minP ts3
          else some (l, ts)
        else if startsAtomG ts && minP ≤ 60 then do
          let (a, ts3) ← atf ts
          climb pe atf f (Node.appN l a false) minP ts3
        else some (l, ts)
    | _ =>
      if startsAtomG ts && minP ≤ 60 then do
        let (a, ts3) ← atf ts
        climb pe atf f (Node.appN l a false) minP ts3
      else some (l, ts)

/-- Modelled from the spec: precedence-climbing entry point (spec
section 4.2) for the unified term-and-type category of grammar.js.  The
prefix forms lambda (prec.right 11, body floor 11) and the continuation
keywords reset, shift, resume (prec.right 21, operand floor 21) are
parsed first, then an atom, and the result is extended by the climb
loop.  The fuel argument strictly decreases on every nested call. -/
def parseE : Nat → Nat → List Tok → Option (Node × List Tok)
  | 0, _, _ => none
  | f + 1, minP, ts =>
    match ts with
    | Tok.sym "\\" :: ts2 => do
        let (ps, ts3) ← paramsP (parseE f) f ts2
        match ts3 with
        | Tok.sym "->" :: ts4 => do
            let (b, ts5) ← parseE f 11 ts4
            climb (parseE f) (atomP (parseE f) f) f (Node.lamN ps b false) minP ts5
        | Tok.sym "=>" :: ts4 => do
            let (b, ts5) ← parseE f 11 ts4
            climb (parseE f) (atomP (parseE f) f) f (Node.lamN ps b true) minP ts5
        | _ => none
    | Tok.sym "reset" :: ts2 => do
        let (e, ts3) ← parseE f 21 ts2
        climb (parseE f) (atomP (parseE f) f) f (Node.resetN e) minP ts3
    | Tok.sym "shift" :: ts2 => do
        let (e, ts3) ← parseE f 21 ts2
        climb (parseE f) (atomP (parseE f) f) f (Node.shiftN e) minP ts3
    | Tok.sym "resume" :: ts2 => do
        let (e, ts3) ← parseE f 21 ts2
        climb (parseE f) (atomP (parseE f) f) f (Node.resumeN e) minP ts3
    | _ => do
        let (a, ts2) ← atomP (parseE f) f ts
        climb (parseE f) (atomP (parseE f) f) f a minP ts2

/-- Parse a complete token stream as one expression or type of
grammar.js. -/
def parseG (ts : List Tok) : Option Node :=
  match parseE 400 0 ts with
  | some (n, []) => some n
  | _ => none

/-- Precedence number of the ann rule in grammar.js (PRECEDENCE.types,
line 24; the source comment reads: higher than pipelines for
intermediate annotations). -/
def annPrec : Nat := 32

/-- Precedence number of the modal tier in grammar.js. -/
def modalPrec : Nat := 31

/-- Precedence number of the pipeline tier in grammar.js. -/
def pipelinePrec : Nat := 22

/-- Precedence number of the continuation tier (reset, shift, resume). -/
def contPrec : Nat := 21

/-- Precedence number of the logical-or tier. -/
def orPrec : Nat := 41

/-- Precedence number of the arrow tier (lambda, pi, mu). -/
def arrowPrec : Nat := 11

/-- Associativity of the ann rule: prec.right in grammar.js. -/
def annAssoc : Assoc := Assoc.right

end Gjs

namespace V2

/-- AST nodes of the second draft grammar (src/unnamed/part_000, lines
420 on), one constructor per named rule reachable from the expression
fragment under verification.  Unlike grammar.js this grammar has
separate pi and arrow rules: pi carries the typed bindings of its
parenthesized pidomain, arrow carries an untyped domain (a parenthesized
type_expr list, or a single plain expression kept as a one-element
list).  Application is seq(atom, repeat1 argument); each argument is
tagged implicit (the '@' form) or explicit. -/
inductive Node where
  | var (name : String)
  | lbl (name : String)
  | hole
  | numL (intPart : String) (fracPart : Option String)
  | strL (s : String)
  | boolL (b : Bool)
  | typeL
  | unitL
  | rowLitL
  | bangL
  | paren (t : Node)
  | appN (fn : Node) (args : List (Bool × Node))
  | opN (op : String) (l r : Node)
  | annN (e t : Node)
  | unaryN (op : String) (operand : Node)
  | piN (params : List (String × Node)) (codomain : Node) (implicitArrow : Bool)
  | arrowN (domain : List Node) (codomain : Node) (implicitArrow : Bool)
  | lamN (params : List (String × Option Node)) (body : Node) (implicitArrow : Bool)
  | taggedN (tag : String) (payload : Node)
  | resetN (e : Node)
  | shiftN (e : Node)
  | resumeN (e : Node)
  | projN (record : Option Node) (key : String)

/-- Type of the expression-parsing entry point of the draft grammar. -/
abbrev PE := Nat → List Tok → Option (Node × List Tok)

/-- sep1(rule, ',') of the draft grammar. -/
def sepByP {α : Type} (p : List Tok → Option (α × List Tok)) :
    Nat → List Tok → Option (List α × List Tok)
  | 0, _ => none
  | f + 1, ts => do
    let (a, ts1) ← p ts
    match ts1 with
    | Tok.sym "," :: ts2 => do
        let (rest, ts3) ← sepByP p f ts2
        pure (a :: rest, ts3)
    | _ => pure ([a], ts1)

/-- repeat(rule) of the draft grammar. -/
def manyP {α : Type} (p : List Tok → Option (α × List Tok)) :
    Nat → List Tok → (List α × List Tok)
  | 0, ts => ([], ts)
  | f + 1, ts =>
    match p ts with
    | some (a, ts1) =>
        let (rest, ts2) := manyP p f ts1
        (a :: rest, ts2)
    | none => ([], ts)

/-- typing rule: prec.right(base, seq(identifier, ':', type_expr)); the
type position climbs from the base tier 10. -/
def typingP (pe : PE) : List Tok → Option ((String × Node) × List Tok)
  | Tok.ident x :: Tok.sym ":" :: ts => do
      let (t, ts1) ← pe 10 ts
      pure ((x, t), ts1)
  | _ => none

/-- Lexemes among the fixed tokens that can begin an atom of the draft
grammar (which also lists reset, shift, resume and block among its
atoms, and whose hole lexeme is '?'). -/
def atomSyms : List String :=
  ["true", "false", "Type", "Unit", "Row", "!", "?", "(", "\x7b", "[", ".",
   "#", "reset", "shift", "resume"]

/-- Whether the token stream begins an atom of the draft grammar.  The
label is its own token here, so no colon lookahead is needed. -/
def startsAtomV : List Tok → Bool
  | Tok.ident _ :: _ => true
  | Tok.num _ _ :: _ => true
  | Tok.strlit _ :: _ => true
  | Tok.label _ :: _ => true
  | Tok.sym s :: _ => atomSyms.contains s
  | _ => false

/-- Chained field access, prec.left(70) branch of the projection rule. -/
def projChain : Nat → Node → List Tok → (Node × List Tok)
  | 0, n, ts => (n, ts)
  | f + 1, n, ts =>
    match ts with
    | Tok.sym "." :: Tok.ident k :: ts2 => projChain f (Node.projN (some n) k) ts2
    | _ => (n, ts)

/-- param rule: identifier or parenthesized typing. -/
def paramP (pe : PE) : List Tok → Option ((String × Option Node) × List Tok)
  | Tok.ident s :: ts => some ((s, none), ts)
  | Tok.sym "(" :: Tok.ident s :: Tok.sym ":" :: ts => do
      let (t, ts1) ← pe 10 ts
      match ts1 with
      | Tok.sym ")" :: ts2 => pure ((s, some t), ts2)
      | _ => none
  | _ => none

/-- params rule: repeat1(param) or a parenthesized comma list of
params. -/
def paramsP (pe : PE) (f : Nat) : List Tok → Option (List (String × Option Node) × List Tok)
  | Tok.sym "(" :: ts => do
      let (ps, ts1) ← sepByP (paramP pe) f ts
      match ts1 with
      | Tok.sym ")" :: ts2 => pure (ps, ts2)
      | _ => none
  | ts => do
      let (p, ts1) ← paramP pe ts
      let (rest, ts2) := manyP (paramP pe) f ts1
      pure (p :: rest, ts2)

/-- Modelled from the spec: parenthesized group dispatch of the draft
grammar (spec section 4.3, pi versus arrow: the domain shape alone
selects the variant).  The pidomain reading — a parenthesized sep1 of
typing bindings followed by an arrow marker — is attempted first; then
the arrdomain reading — a parenthesized sep1 of type_exprs followed by
an arrow marker; otherwise the group is the parenthesized rule.  The
three component readings are the transcribed rules pi, arrow and
parenthesized, each with codomain at the prec.right arrow tier 13. -/
def parenP (pe : PE) (f : Nat) (ts : List Tok) : Option (Node × List Tok) :=
  match (do
    let (ps, ts1) ← sepByP (typingP pe) f ts
    match ts1 with
    | Tok.sym ")" :: Tok.sym "->" :: ts2 => do
        let (c, ts3) ← pe 13 ts2
        pure (Node.piN ps c false, ts3)
    | Tok.sym ")" :: Tok.sym "=>" :: ts2 => do
        let (c, ts3) ← pe 13 ts2
        pure (Node.piN ps c true, ts3)
    | _ => none : Option (Node × List Tok)) with
  | some r => some r
  | none =>
    match (do
      let (ds, ts1) ← sepByP (fun ts => pe 0 ts) f ts
      match ts1 with
      | Tok.sym ")" :: Tok.sym "->" :: ts2 => do
          let (c, ts3) ← pe 13 ts2
          pure (Node.arrowN ds c false, ts3)
      | Tok.sym ")" :: Tok.sym "=>" :: ts2 => do
          let (c, ts3) ← pe 13 ts2
          pure (Node.arrowN ds c true, ts3)
      | _ => none : Option (Node × List Tok)) with
    | some r => some r
    | none => do
        let (e, ts1) ← pe 0 ts
        match ts1 with
        | Tok.sym ")" :: ts2 => pure (Node.paren e, ts2)
        | _ => none

/-- Base atoms of the draft grammar (atom rule): variable (identifier or
the single-token label), hole '?', literals, record-less projection,
tagged, the continuation keywords (prec.right 21 operands), and
parenthesized groups.  The brace and bracket aggregate rules of the
draft mirror grammar.js and fall outside the verified draft fragment;
no claim exercises them against this variant. -/
def atomBase (pe : PE) (f : Nat) : List Tok → Option (Node × List Tok)
  | Tok.ident s :: ts => some (Node.var s, ts)
  | Tok.label s :: ts => some (Node.lbl s, ts)
  | Tok.num i fr :: ts => some (Node.numL i fr, ts)
  | Tok.strlit s :: ts => some (Node.strL s, ts)
  | Tok.sym "true" :: ts => some (Node.boolL true, ts)
  | Tok.sym "false" :: ts => some (Node.boolL false, ts)
  | Tok.sym "Type" :: ts => some (Node.typeL, ts)
  | Tok.sym "Unit" :: ts => some (Node.unitL, ts)
  | Tok.sym "Row" :: ts => some (Node.rowLitL, ts)
  | Tok.sym "!" :: ts => some (Node.bangL, ts)
  | Tok.sym "?" :: ts => some (Node.hole, ts)
  | Tok.sym "." :: Tok.ident k :: ts => some (Node.projN none k, ts)
  | Tok.sym "#" :: Tok.ident tg :: ts => do
      let (p, ts1) ← pe 12 ts
      pure (Node.taggedN tg p, ts1)
  | Tok.sym "reset" :: ts => do
      let (e, ts1) ← pe 21 ts
      pure (Node.resetN e, ts1)
  | Tok.sym "shift" :: ts => do
      let (e, ts1) ← pe 21 ts
      pure (Node.shiftN e, ts1)
  | Tok.sym "resume" :: ts => do
      let (e, ts1) ← pe 21 ts
      pure (Node.resumeN e, ts1)
  | Tok.sym "(" :: ts => parenP pe f ts
  | _ => none

/-- An atom together with its greedy projection chain. -/
def atomP (pe : PE) (f : Nat) (ts : List Tok) : Option (Node × List Tok) := do
  let (b, ts1) ← atomBase pe f ts
  pure (projChain f b ts1)

/-- argument rule: an explicit atom, or '@' followed by an atom for an
implicit argument. -/
def argP (atf : List Tok → Option (Node × List Tok)) (ts : List Tok) :
    Option ((Bool × Node) × List Tok) :=
  match ts with
  | Tok.sym "@" :: ts2 => do
      let (a, ts3) ← atf ts2
      pure ((true, a), ts3)
  | _ =>
    if startsAtomV ts then do
      let (a, ts3) ← atf ts
      pure ((false, a), ts3)
    else none

/-- Modelled from the spec: the precedence-climbing loop (spec section
4.2) for the draft grammar with its declared tiers: the shared binary
operation tiers (prec.left), the annotation rule ':' at prec.right base
10, the arrow rule marker at prec.right 13 (a plain left operand is the
arrdomain branch param: expr, kept as a one-element domain), and
application at tier 60 collecting the repeat1 of arguments. -/
def climb (pe : PE) (atf : List Tok → Option (Node × List Tok)) :
    Nat → Node → Nat → List Tok → Option (Node × List Tok)
  | 0, _, _, _ => none
  | f + 1, l, minP, ts =>
    match ts with
    | Tok.sym s :: ts2 =>
      match leftOpPrec s with
      | some p =>
        if minP ≤ p then do
          let (r, ts3) ← pe (p + 1) ts2
          climb pe atf f (Node.opN s l r) minP ts3
        else some (l, ts)
      | none =>
        if s = ":" then
          if minP ≤ 10 then do
            let (r, ts3) ← pe 10 ts2
            climb pe atf f (Node.annN l r) minP ts3
          else some (l, ts)
        else if s = "->" || s = "=>" then
          if minP ≤ 13 then do
            let (r, ts3) ← pe 13 ts2
            climb pe atf f (Node.arrowN [l] r (s = "=>")) minP ts3
          else some (l, ts)
        else if (s = "@" || startsAtomV ts) && minP ≤ 60 then do
          let (a1, ts3) ← argP atf ts
          let (more, ts4) := manyP (argP atf) f ts3
          climb pe atf f (Node.appN l (a1 :: more)) minP ts4
        else some (l, ts)
    | _ =>
      if startsAtomV ts && minP ≤ 60 then do
        let (a1, ts3) ← argP atf ts
        let (more, ts4) := manyP (argP atf) f ts3
        climb pe atf f (Node.appN l (a1 :: more)) minP ts4
      else some (l, ts)

/-- Modelled from the spec: precedence-climbing entry point for the
draft grammar.  The prefix forms are lambda (prec.right base, body floor
10) and the unary '-' and '+' (prec.right 61); the continuation
keywords are atoms in this variant and are handled by atomBase. -/
def parseE : Nat → Nat → List Tok → Option (Node × List Tok)
  | 0, _, _ => none
  | f + 1, minP, ts =>
    match ts with
    | Tok.sym "\\" :: ts2 => do
        let (ps, ts3) ← paramsP (parseE f) f ts2
        match ts3 with
        | Tok.sym "->" :: ts4 => do
            let (b, ts5) ← parseE f 10 ts4
            climb (parseE f) (atomP (parseE f) f) f (Node.lamN ps b false) minP ts5
        | Tok.sym "=>" :: ts4 => do
            let (b, ts5) ← parseE f 10 ts4
            climb (parseE f) (atomP (parseE f) f) f (Node.lamN ps b true) minP ts5
        | _ => none
    | Tok.sym "-" :: ts2 => do
        let (e, ts3) ← parseE f 61 ts2
        climb (parseE f) (atomP (parseE f) f) f (Node.unaryN "-" e) minP ts3
    | Tok.sym "+" :: ts2 => do
        let (e, ts3) ← parseE f 61 ts2
        climb (parseE f) (atomP (parseE f) f) f (Node.unaryN "+" e) minP ts3
    | _ => do
        let (a, ts2) ← atomP (parseE f) f ts
        climb (parseE f) (atomP (parseE f) f) f a minP ts2

/-- Parse a complete token stream as one expression or type of the
draft grammar. -/
def parseV (ts : List Tok) : Option Node :=
  match parseE 400 0 ts with
  | some (n, []) => some n
  | _ => none

/-- Tier numbers of the draft PRECEDENCE table (both drafts declare the
same numbers; the second additionally names a domain tier 11).  The
annotation rule sits at syntactic.base. -/
def basePrec : Nat := 10

/-- Tier of the key rule (syntactic.key). -/
def keyPrec : Nat := 11

/-- Tier of the tagged rule (syntactic.tag). -/
def tagPrec : Nat := 12

/-- Tier of the arrow, pi, lambda and mu rules (syntactic.arrow). -/
def arrowPrec : Nat := 13

/-- Tier of the continuation keywords. -/
def contPrec : Nat := 21

/-- Tier of the pipeline operators. -/
def pipelinePrec : Nat := 22

/-- Tier of the modal single form. -/
def modalSinglePrec : Nat := 31

/-- Tier of the modal multiple form. -/
def modalMultiplePrec : Nat := 32

/-- Tier of logical-or. -/
def orPrec : Nat := 41

/-- Tier of logical-and. -/
def andPrec : Nat := 42

/-- Tier of the relational operators. -/
def relPrec : Nat := 51

/-- Tier of the concat operators. -/
def concatPrec : Nat := 52

/-- Tier of the additive operators. -/
def addPrec : Nat := 53

/-- Tier of the multiplicative operators. -/
def multPrec : Nat := 54

/-- Tier of application. -/
def appPrec : Nat := 60

/-- Tier of the unary operators. -/
def unaryPrec : Nat := 61

/-- Tier of the aggregate tail. -/
def tailPrec : Nat := 62

/-- Tier of projection. -/
def projPrec : Nat := 70

/-- Tier of injection. -/
def injPrec : Nat := 71

/-- Tier of the key_value rule (syntactic.field). -/
def fieldPrec : Nat := 80

/-- Associativity of the annotation rule: prec.right in both drafts. -/
def annAssoc : Assoc := Assoc.right

end V2

/-- Claim C1: a brace-delimited construct parses as a struct exactly
when its interior parses as key ':' value items (the struct reading is
preferred whenever the transcribed struct rule matches, first
conjunct), and contents with semicolon-terminated statements or a
return clause parse as a block and never as a struct: the schematic
interiors x ';' return y ':' t ';' and let n '=' v ';' yield block
nodes, and the struct rule rejects them. -/
theorem c1_struct_block_tiebreak :
    (∀ (pe : Gjs.PE) (f : Nat) (ts : List Tok) (r : Gjs.Node × List Tok),
        Gjs.structP pe f ts = some r → Gjs.braceAlts pe f ts = some r)
    ∧ (∀ a b x y : String,
        Gjs.parseG [Tok.sym "\x7b", Tok.ident a, Tok.sym ":", Tok.ident x,
            Tok.sym ",", Tok.ident b, Tok.sym ":", Tok.ident y, Tok.sym "\x7d"]
          = some (Gjs.Node.structN [(a, Gjs.Node.var x), (b, Gjs.Node.var y)] none))
    ∧ (∀ x y t : String,
        Gjs.parseG [Tok.sym "\x7b", Tok.ident x, Tok.sym ";", Tok.sym "return",
            Tok.ident y, Tok.sym ":", Tok.ident t, Tok.sym ";", Tok.sym "\x7d"]
          = some (Gjs.Node.blockN [Gjs.Node.var x]
              (some (Gjs.Node.annN (Gjs.Node.var y) (Gjs.Node.var t)))))
    ∧ (∀ x y t : String,
        Gjs.structP (Gjs.parseE 399) 399
            [Tok.ident x, Tok.sym ";", Tok.sym "return", Tok.ident y,
             Tok.sym ":", Tok.ident t, Tok.sym ";", Tok.sym "\x7d"] = none)
    ∧ (∀ n v : String,
        Gjs.parseG [Tok.sym "\x7b", Tok.sym "let", Tok.ident n, Tok.sym "=",
            Tok.ident v, Tok.sym ";", Tok.sym "\x7d"]
          = some (Gjs.Node.blockN [Gjs.Node.letN n none (Gjs.Node.var v)] none))
    ∧ (∀ n v : String,
        Gjs.structP (Gjs.parseE 399) 399
            [Tok.sym "let", Tok.ident n, Tok.sym "=", Tok.ident v,
             Tok.sym ";", Tok.sym "\x7d"] = none) :=
  ⟨fun pe f ts r h => by unfold Gjs.braceAlts; rw [h],
   fun _ _ _ _ => rfl, fun _ _ _ => rfl, fun _ _ _ => rfl,
   fun _ _ => rfl, fun _ _ => rfl⟩

/-- Claim C1 witness: the tie-break preference instantiated at the
concrete interior a ':' 1 followed by the closing brace. -/
theorem c1_struct_block_tiebreak_inst :
    Gjs.braceAlts (Gjs.parseE 399) 399
        [Tok.ident "a", Tok.sym ":", Tok.num "1" none, Tok.sym "\x7d"]
      = some (Gjs.Node.structN [("a", Gjs.Node.numL "1" none)] none, []) :=
  c1_struct_block_tiebreak.1 _ _ _ _ rfl

/-- Claim C2 counterexample: in src/grammar.js the annotation tier is
32, strictly above the pipeline tier 22 and the continuation tier 21,
so the bare ':' does not have the lowest precedence there; concretely,
reset x ':' T parses with the annotation inside the continuation
operand, annotating only x rather than binding everything to its
left. -/
theorem c2_ann_not_lowest :
    Gjs.pipelinePrec < Gjs.annPrec ∧ Gjs.contPrec < Gjs.annPrec
    ∧ Gjs.parseG [Tok.sym "reset", Tok.ident "x", Tok.sym ":", Tok.ident "T"]
        = some (Gjs.Node.resetN (Gjs.Node.annN (Gjs.Node.var "x") (Gjs.Node.var "T"))) :=
  ⟨by decide, by decide, rfl⟩

/-- Claim C2 amended: the bare annotation ':' is right-associative in
every variant; in the draft grammars its tier (syntactic.base, 10) is
strictly the lowest of every tier in the PRECEDENCE table — in
particular below pipelines, the logical operators and the continuation
keywords, so e.g. a '|>' b ':' t and reset x ':' t annotate the whole
left part — while in src/grammar.js its tier is 32, above the pipeline
(22), continuation (21) and modal (31) tiers and below logical-or (41). -/
theorem c2_ann_tier_amended :
    (V2.basePrec < V2.keyPrec ∧ V2.basePrec < V2.tagPrec
      ∧ V2.basePrec < V2.arrowPrec ∧ V2.basePrec < V2.contPrec
      ∧ V2.basePrec < V2.pipelinePrec ∧ V2.basePrec < V2.modalSinglePrec
      ∧ V2.basePrec < V2.modalMultiplePrec ∧ V2.basePrec < V2.orPrec
      ∧ V2.basePrec < V2.andPrec ∧ V2.basePrec < V2.relPrec
      ∧ V2.basePrec < V2.concatPrec ∧ V2.basePrec < V2.addPrec
      ∧ V2.basePrec < V2.multPrec ∧ V2.basePrec < V2.appPrec
      ∧ V2.basePrec < V2.unaryPrec ∧ V2.basePrec < V2.tailPrec
      ∧ V2.basePrec < V2.projPrec ∧ V2.basePrec < V2.injPrec
      ∧ V2.basePrec < V2.fieldPrec
      ∧ Gjs.annAssoc = Assoc.right ∧ V2.annAssoc = Assoc.right
      ∧ Gjs.pipelinePrec < Gjs.annPrec ∧ Gjs.contPrec < Gjs.annPrec
      ∧ Gjs.modalPrec < Gjs.annPrec ∧ Gjs.annPrec < Gjs.orPrec)
    ∧ (∀ x a b : String,
        V2.parseV [Tok.ident x, Tok.sym ":", Tok.ident a, Tok.sym ":", Tok.ident b]
          = some (V2.Node.annN (V2.Node.var x)
              (V2.Node.annN (V2.Node.var a) (V2.Node.var b))))
    ∧ (∀ a b t : String,
        V2.parseV [Tok.ident a, Tok.sym "|>", Tok.ident b, Tok.sym ":", Tok.ident t]
          = some (V2.Node.annN (V2.Node.opN "|>" (V2.Node.var a) (V2.Node.var b))
              (V2.Node.var t)))
    ∧ (∀ x t : String,
        V2.parseV [Tok.sym "reset", Tok.ident x, Tok.sym ":", Tok.ident t]
          = some (V2.Node.annN (V2.Node.resetN (V2.Node.var x)) (V2.Node.var t))) :=
  ⟨by decide, fun _ _ _ => rfl, fun _ _ _ => rfl, fun _ _ => rfl⟩

/-- Claim C3 counterexample: src/grammar.js has no arrow rule at all —
its rule list contains pi but not arrow — and the unannotated
Nat '->' Nat parses there as a pi node, not as an Arrow node with no
bound name as the claim states. -/
theorem c3_gjs_arrow_absent :
    gjsRuleNames.contains "arrow" = false
    ∧ gjsRuleNames.contains "pi" = true
    ∧ Gjs.parseG [Tok.ident "Nat", Tok.sym "->", Tok.ident "Nat"]
        = some (Gjs.Node.piN (Gjs.Node.var "Nat") (Gjs.Node.var "Nat") false) :=
  ⟨rfl, rfl, rfl⟩

/-- Claim C3 amended: in the draft grammars (which have both rules) the
domain shape selects the node variant as the claim states: a
parenthesized identifier ':' type binding list before the arrow marker
yields a pi node carrying the bound names, and a single unannotated
type yields an arrow node with no bound name; in src/grammar.js there
is no arrow rule and an arrow-marked type yields a pi node for both
domain shapes, with the typed binding kept as a parenthesized
annotation rather than as a named binder. -/
theorem c3_pi_arrow_selection_amended :
    v2RuleNames.contains "arrow" = true
    ∧ v2RuleNames.contains "pi" = true
    ∧ (∀ x n v a : String,
        V2.parseV [Tok.sym "(", Tok.ident x, Tok.sym ":", Tok.ident n,
            Tok.sym ")", Tok.sym "->", Tok.ident v, Tok.ident a]
          = some (V2.Node.piN [(x, V2.Node.var n)]
              (V2.Node.appN (V2.Node.var v) [(false, V2.Node.var a)]) false))
    ∧ (∀ n m : String,
        V2.parseV [Tok.ident n, Tok.sym "->", Tok.ident m]
          = some (V2.Node.arrowN [V2.Node.var n] (V2.Node.var m) false))
    ∧ (∀ x n c : String,
        Gjs.parseG [Tok.sym "(", Tok.ident x, Tok.sym ":", Tok.ident n,
            Tok.sym ")", Tok.sym "->", Tok.ident c]
          = some (Gjs.Node.piN
              (Gjs.Node.paren (Gjs.Node.annN (Gjs.Node.var x) (Gjs.Node.var n)))
              (Gjs.Node.var c) false))
    ∧ (∀ n m : String,
        Gjs.parseG [Tok.ident n, Tok.sym "->", Tok.ident m]
          = some (Gjs.Node.piN (Gjs.Node.var n) (Gjs.Node.var m) false)) :=
  ⟨rfl, rfl, fun _ _ _ _ => rfl, fun _ _ => rfl, fun _ _ _ => rfl, fun _ _ => rfl⟩

/-- Claim C4: a bracketed literal whose items are all bare expressions
parses as a list node, one whose items are all key ':' value pairs
parses as a row node, and a bracketed literal mixing the two shapes is
rejected: the committed row reading fails on the second item and no
parse results. -/
theorem c4_bracket_disambiguation :
    (∀ a b c : String,
        Gjs.parseG [Tok.sym "[", Tok.ident a, Tok.sym ",", Tok.ident b,
            Tok.sym ",", Tok.ident c, Tok.sym "]"]
          = some (Gjs.Node.listN [Gjs.Node.var a, Gjs.Node.var b, Gjs.Node.var c] none))
    ∧ Gjs.parseG [Tok.sym "[", Tok.num "1" none, Tok.sym ",", Tok.num "2" none,
          Tok.sym ",", Tok.num "3" none, Tok.sym "]"]
        = some (Gjs.Node.listN
            [Gjs.Node.numL "1" none, Gjs.Node.numL "2" none, Gjs.Node.numL "3" none] none)
    ∧ Gjs.parseG [Tok.sym "[", Tok.ident "a", Tok.sym ":", Tok.num "1" none,
          Tok.sym ",", Tok.ident "b", Tok.sym ":", Tok.num "2" none, Tok.sym "]"]
        = some (Gjs.Node.rowN
            [("a", Gjs.Node.numL "1" none), ("b", Gjs.Node.numL "2" none)] none)
    ∧ Gjs.parseG [Tok.sym "[", Tok.ident "a", Tok.sym ":", Tok.num "1" none,
          Tok.sym ",", Tok.num "2" none, Tok.sym "]"] = none :=
  ⟨fun _ _ _ => rfl, rfl, rfl, rfl⟩

/-- Claim C5: binder forms are right-associative: A '->' B '->' C
parses as A '->' (B '->' C) in src/grammar.js (pi nodes) and in the
draft grammars (arrow nodes), and the nested lambda
'\' x '->' '\' y '->' x parses with the inner lambda as the body of the
outer one in both. -/
theorem c5_binder_right_assoc :
    (∀ A B C : String,
        Gjs.parseG [Tok.ident A, Tok.sym "->", Tok.ident B, Tok.sym "->", Tok.ident C]
          = some (Gjs.Node.piN (Gjs.Node.var A)
              (Gjs.Node.piN (Gjs.Node.var B) (Gjs.Node.var C) false) false))
    ∧ (∀ A B C : String,
        V2.parseV [Tok.ident A, Tok.sym "->", Tok.ident B, Tok.sym "->", Tok.ident C]
          = some (V2.Node.arrowN [V2.Node.var A]
              (V2.Node.arrowN [V2.Node.var B] (V2.Node.var C) false) false))
    ∧ (∀ x y : String,
        Gjs.parseG [Tok.sym "\\", Tok.ident x, Tok.sym "->", Tok.sym "\\",
            Tok.ident y, Tok.sym "->", Tok.ident x]
          = some (Gjs.Node.lamN [(x, none)]
              (Gjs.Node.lamN [(y, none)] (Gjs.Node.var x) false) false))
    ∧ (∀ x y : String,
        V2.parseV [Tok.sym "\\", Tok.ident x, Tok.sym "->", Tok.sym "\\",
            Tok.ident y, Tok.sym "->", Tok.ident x]
          = some (V2.Node.lamN [(x, none)]
              (V2.Node.lamN [(y, none)] (V2.Node.var x) false) false)) :=
  ⟨fun _ _ _ => rfl, fun _ _ _ => rfl, fun _ _ => rfl, fun _ _ => rfl⟩

/-- Claim C6: binary-operator precedence follows the declared tiers
with left associativity: a '+' b '*' c parses as a '+' (b '*' c),
a '*' b '+' c as (a '*' b) '+' c, a '||' b '&&' c as
a '||' (b '&&' c), and the left associativity within one tier is
witnessed by a '+' b '+' c parsing as (a '+' b) '+' c; the tier numbers
are those of the operation rule (multiplicative 54 over additive 53,
logical-and 42 over logical-or 41). -/
theorem c6_operator_precedence :
    (∀ a b c : String,
        Gjs.parseG [Tok.ident a, Tok.sym "+", Tok.ident b, Tok.sym "*", Tok.ident c]
          = some (Gjs.Node.opN "+" (Gjs.Node.var a)
              (Gjs.Node.opN "*" (Gjs.Node.var b) (Gjs.Node.var c))))
    ∧ (∀ a b c : String,
        Gjs.parseG [Tok.ident a, Tok.sym "*", Tok.ident b, Tok.sym "+", Tok.ident c]
          = some (Gjs.Node.opN "+"
              (Gjs.Node.opN "*" (Gjs.Node.var a) (Gjs.Node.var b)) (Gjs.Node.var c)))
    ∧ (∀ a b c : String,
        Gjs.parseG [Tok.ident a, Tok.sym "||", Tok.ident b, Tok.sym "&&", Tok.ident c]
          = some (Gjs.Node.opN "||" (Gjs.Node.var a)
              (Gjs.Node.opN "&&" (Gjs.Node.var b) (Gjs.Node.var c))))
    ∧ (∀ a b c : String,
        Gjs.parseG [Tok.ident a, Tok.sym "+", Tok.ident b, Tok.sym "+", Tok.ident c]
          = some (Gjs.Node.opN "+"
              (Gjs.Node.opN "+" (Gjs.Node.var a) (Gjs.Node.var b)) (Gjs.Node.var c)))
    ∧ leftOpPrec "*" = some 54 ∧ leftOpPrec "+" = some 53
    ∧ leftOpPrec "&&" = some 42 ∧ leftOpPrec "||" = some 41 :=
  ⟨fun _ _ _ => rfl, fun _ _ _ => rfl, fun _ _ _ => rfl, fun _ _ _ => rfl,
   rfl, rfl, rfl, rfl⟩

/-- Claim C7 counterexample: the identifier pattern of src/grammar.js
is [a-zA-Z][a-zA-Z0-9]*, so the lexeme _x matches the pattern stated by
the claim but is not an identifier of src/grammar.js (no leading
underscore), and xq' (with a prime) likewise is not. -/
theorem c7_ident_pattern_cex :
    specIdentM "_x" = true ∧ gjsIdentM "_x" = false
    ∧ specIdentM (String.mk ['x', 'q', '\'']) = true
    ∧ gjsIdentM (String.mk ['x', 'q', '\'']) = false :=
  ⟨rfl, rfl, rfl, rfl⟩

/-- Claim C7 amended: the draft grammars use exactly the claimed
identifier pattern [A-Za-z_][A-Za-z0-9_']* (underscore start,
digits, underscores and primes allowed), while src/grammar.js uses
[a-zA-Z][a-zA-Z0-9]* (digits allowed, but no underscore and no prime);
in both, a matched word lexeme is checked against the keyword set
before an identifier token is emitted, so an identifier token is
emitted exactly for the non-keyword lexemes. -/
theorem c7_ident_pattern_amended :
    (∀ s : String, draftIdentM s = specIdentM s)
    ∧ gjsIdentM "x9" = true ∧ gjsIdentM "xy" = true
    ∧ gjsIdentM "_x" = false ∧ gjsIdentM "x_y" = false
    ∧ draftIdentM "_x" = true
    ∧ draftIdentM (String.mk ['x', 'q', '\'']) = true
    ∧ (∀ s : String, classifyWord s = Tok.ident s ↔ yapKeywords.contains s = false)
    ∧ classifyWord "let" = Tok.sym "let"
    ∧ classifyWord "foo" = Tok.ident "foo" :=
  ⟨fun _ => rfl, rfl, rfl, rfl, rfl, rfl, rfl,
   fun s => by
     unfold classifyWord
     cases h : yapKeywords.contains s with
     | true => simp [h]
     | false => simp [h],
   rfl, rfl⟩

/-- Claim C8 counterexample: in src/grammar.js the label rule is the
parser-level sequence ':' identifier, not a single lexer token, so the
two tokens produced from the whitespace-separated text ': foo' do form
a label there, contradicting the claim that whitespace between ':' and
the identifier never forms a label. -/
theorem c8_label_parser_level_cex :
    lexG (": foo".toList) = some [Tok.sym ":", Tok.ident "foo"]
    ∧ Gjs.parseG [Tok.sym ":", Tok.ident "foo"] = some (Gjs.Node.lbl "foo") :=
  ⟨rfl, rfl⟩

/-- Claim C8 amended: in the draft grammars the label is one single
token ':identifier' produced by maximal munch in the lexer — ':foo'
lexes as one label token, ': foo' (whitespace between) lexes as a bare
':' and an identifier and then never parses as a label, and 'x:foo'
lexes as an identifier followed by a label so the label is not confused
with the ':' annotation punctuation — whereas in src/grammar.js the
label is assembled by the parser from a ':' token and an identifier
token, so whitespace may separate the two. -/
theorem c8_label_token_amended :
    lexV (":foo".toList) = some [Tok.label "foo"]
    ∧ lexV (": foo".toList) = some [Tok.sym ":", Tok.ident "foo"]
    ∧ (∀ s : String, V2.parseV [Tok.label s] = some (V2.Node.lbl s))
    ∧ (∀ s : String, V2.parseV [Tok.sym ":", Tok.ident s] = none)
    ∧ lexV ("x:foo".toList) = some [Tok.ident "x", Tok.label "foo"]
    ∧ (∀ x s : String,
        V2.parseV [Tok.ident x, Tok.label s]
          = some (V2.Node.appN (V2.Node.var x) [(false, V2.Node.lbl s)]))
    ∧ lexG (":foo".toList) = some [Tok.sym ":", Tok.ident "foo"]
    ∧ (∀ x s : String,
        Gjs.parseG [Tok.ident x, Tok.sym ":", Tok.ident s]
          = some (Gjs.Node.annN (Gjs.Node.var x) (Gjs.Node.var s))) :=
  ⟨rfl, rfl, fun _ => rfl, fun _ => rfl, rfl, fun _ _ => rfl, rfl, fun _ _ => rfl⟩

/-- Claim C9: every grammar variant accepts a standalone hole
placeholder as an atom — the hole rule is an alternative of the atom
rule, its lexeme is '_' in src/grammar.js and '?' in both drafts — and
it yields a dedicated hole node wherever an atom may appear (standalone,
as an application argument, as an operand), distinct from the pattern
wildcard rule, which is a separate rule listed only among the pattern
alternatives. -/
theorem c9_hole_atom :
    gjsAtomChoices.contains "hole" = true
    ∧ v2AtomChoices.contains "hole" = true
    ∧ gjsHoleLexeme = "_" ∧ v2HoleLexeme = "?"
    ∧ gjsPatternChoices.contains "hole" = false
    ∧ v2PatternChoices.contains "hole" = false
    ∧ gjsPatternChoices.contains "wildcard" = true
    ∧ v2PatternChoices.contains "wildcard" = true
    ∧ gjsAtomChoices.contains "wildcard" = false
    ∧ v2AtomChoices.contains "wildcard" = false
    ∧ gjsWildcardLexeme = "_"
    ∧ Gjs.parseG [Tok.sym "_"] = some Gjs.Node.hole
    ∧ (∀ f : String,
        Gjs.parseG [Tok.ident f, Tok.sym "_"]
          = some (Gjs.Node.appN (Gjs.Node.var f) Gjs.Node.hole false))
    ∧ Gjs.parseG [Tok.sym "_", Tok.sym "+", Tok.sym "_"]
        = some (Gjs.Node.opN "+" Gjs.Node.hole Gjs.Node.hole)
    ∧ V2.parseV [Tok.sym "?"] = some V2.Node.hole
    ∧ (∀ f : String,
        V2.parseV [Tok.ident f, Tok.sym "?"]
          = some (V2.Node.appN (V2.Node.var f) [(false, V2.Node.hole)])) :=
  ⟨rfl, rfl, rfl, rfl, rfl, rfl, rfl, rfl, rfl, rfl, rfl, rfl,
   fun _ => rfl, rfl, rfl, fun _ => rfl⟩

/-- Claim C10: the projection rule of every variant has a record-less
branch: a '.' immediately followed by an identifier, with no preceding
record expression, parses as a projection atom whose record field is
absent, alongside the chained a '.' b '.' c form with the record
present. -/
theorem c10_recordless_projection :
    (∀ k : String, Gjs.parseG [Tok.sym ".", Tok.ident k]
        = some (Gjs.Node.projN none k))
    ∧ (∀ a b c : String,
        Gjs.parseG [Tok.ident a, Tok.sym ".", Tok.ident b, Tok.sym ".", Tok.ident c]
          = some (Gjs.Node.projN (some (Gjs.Node.projN (some (Gjs.Node.var a)) b)) c))
    ∧ (∀ k : String, V2.parseV [Tok.sym ".", Tok.ident k]
        = some (V2.Node.projN none k))
    ∧ (∀ a b c : String,
        V2.parseV [Tok.ident a, Tok.sym ".", Tok.ident b, Tok.sym ".", Tok.ident c]
          = some (V2.Node.projN (some (V2.Node.projN (some (V2.Node.var a)) b)) c)) :=
  ⟨fun _ => rfl, fun _ _ _ => rfl, fun _ => rfl, fun _ _ _ => rfl⟩
